import Mathlib

/-!
Verification of the tau-Guardian harness core: data model, risk metrics,
decision policy, test-output parsing, repair loop, and reconciliation of
external ground-truth evaluations, shallowly embedded from the Python
sources (harness.py, ast_security.py, analyze_mini_swe_results.py,
swe_runner.py).
-/

attribute [local semireducible] Rat.mul Rat.add Rat.sub Rat.inv

/-- Decision values produced by the decision policy. -/
inductive Decision where
  | OK
  | ABSTAIN
  | VETO
deriving DecidableEq, Repr

namespace PyStr

/-- ASCII whitespace characters stripped and split on by the Python str
helpers. -/
def isSpace (c : Char) : Bool :=
  c = ' ' || c = '\t' || c = '\n' || c = '\r' || c = '\x0b' || c = '\x0c'

/-- Python str.lower, ASCII model. -/
def lower (s : String) : String := ⟨s.data.map Char.toLower⟩

/-- Python str.upper, ASCII model. -/
def upper (s : String) : String := ⟨s.data.map Char.toUpper⟩

/-- Python str.strip with no argument: remove leading and trailing
whitespace. -/
def strip (s : String) : String :=
  ⟨(((s.data.dropWhile isSpace).reverse.dropWhile isSpace).reverse)⟩

/-- Prefix test on character lists, recursing on the pattern first so
that it reduces even when the scanned text has a symbolic tail. -/
def isPre : List Char → List Char → Bool
  | [], _ => true
  | _ :: _, [] => false
  | a :: as, b :: bs => a == b && isPre as bs

/-- Python prefix test s.startswith(pre). -/
def startsWith (s pre : String) : Bool := isPre pre.data s.data

/-- Python suffix test s.endswith(suf). -/
def endsWith (s suf : String) : Bool := suf.data.isSuffixOf s.data

/-- Python slice s[n:] over characters. -/
def dropChars (s : String) (n : Nat) : String := ⟨s.data.drop n⟩

/-- Split a character list at every character satisfying p, keeping empty
pieces. -/
def splitPred (p : Char → Bool) : List Char → List (List Char)
  | [] => [[]]
  | c :: cs =>
    match splitPred p cs with
    | h :: t => if p c then [] :: h :: t else (c :: h) :: t
    | [] => [[c]]

/-- Python str.splitlines modelled as a split at newline characters; a
trailing newline contributes a final empty piece, which every use in the
embedded code ignores. -/
def splitLines (s : String) : List String :=
  (splitPred (fun c => c = '\n') s.data).map (fun l => ⟨l⟩)

/-- Python no-argument str.split: split on whitespace runs, discarding
empty pieces. -/
def splitWs (s : String) : List String :=
  ((splitPred isSpace s.data).filter (fun l => !l.isEmpty)).map (fun l => ⟨l⟩)

/-- Lexicographic comparison of strings by character code, as Python
string ordering. -/
def lexLe : List Char → List Char → Bool
  | [], _ => true
  | _ :: _, [] => false
  | a :: as, b :: bs =>
    if a.toNat < b.toNat then true
    else if b.toNat < a.toNat then false
    else lexLe as bs

/-- Insert a string into a sorted list, preserving order. -/
def insertSorted (x : String) : List String → List String
  | [] => [x]
  | y :: ys => if lexLe x.data y.data then x :: y :: ys else y :: insertSorted x ys

/-- Python sorted over strings (insertion sort, ascending code-point
order). -/
def sortStrings (l : List String) : List String :=
  l.foldr insertSorted []

end PyStr

namespace Harness

/-- CheckResults dataclass from harness.py (post-init defaults applied). -/
structure CheckResults where
  total_tests : Nat := 0
  tests_failed : Nat := 0
  tests_output : String := ""
  security_violations : List String := []
  linter_errors : List String := []
deriving DecidableEq, Repr

/-- Metrics dataclass from harness.py; cri is modelled over the rationals. -/
structure Metrics where
  cri : ℚ
  sad_flag : Bool
  tau : Nat
deriving DecidableEq, Repr

/-- Embedding of harness.compute_metrics (harness.py lines 268-279). -/
def compute_metrics (checks : CheckResults) (tau_step : Nat) : Metrics :=
  let pass_rate : ℚ :=
    if checks.total_tests > 0 then
      ((checks.total_tests : ℚ) - (checks.tests_failed : ℚ)) / (checks.total_tests : ℚ)
    else 0
  let sec_penalty : ℚ := (1 / 10) * (checks.security_violations.length : ℚ)
  let lint_penalty : ℚ := (1 / 50) * (checks.linter_errors.length : ℚ)
  let cri : ℚ := max 0 (min 1 (pass_rate - sec_penalty - lint_penalty))
  let sad_flag : Bool := !checks.security_violations.isEmpty
  { cri := cri, sad_flag := sad_flag, tau := tau_step }

/-- Embedding of harness.decide (harness.py lines 282-287); the threshold
argument corresponds to cri_ok_threshold with Python default 0.9. -/
def decide (metrics : Metrics) (checks : CheckResults) (cri_ok_threshold : ℚ) : Decision :=
  if metrics.sad_flag then Decision.VETO
  else if metrics.cri ≥ cri_ok_threshold ∧ checks.tests_failed = 0 then Decision.OK
  else Decision.ABSTAIN

end Harness

namespace Analyze

/-- Observable content of an eval_result mapping consumed by
map_status_to_metrics: the Python code only reads
bool(eval_result.get("resolved", False)). -/
structure EvalResult where
  resolved : Bool
deriving DecidableEq, Repr

/-- Embedding of analyze_mini_swe_results.map_status_to_metrics
(lines 277-303), returning (tests_passed, tests_failed, total_tests,
decision). -/
def map_status_to_metrics (status : Option String) (eval_result : Option EvalResult) :
    Nat × Nat × Nat × Decision :=
  match eval_result with
  | some ev => if ev.resolved then (1, 0, 1, Decision.OK) else (0, 1, 1, Decision.ABSTAIN)
  | none =>
    let status_norm := PyStr.lower (PyStr.strip (status.getD ""))
    if status_norm ∈ ["success", "ok", "pass", "passed", "resolved"] then
      (1, 0, 1, Decision.OK)
    else if status_norm ∈ ["runtimeerror", "timeout", "environmenterror", "error"] then
      (0, 1, 1, Decision.VETO)
    else if status_norm ∈ ["submitted", "pending"] then
      (0, 0, 0, Decision.ABSTAIN)
    else if status_norm = "" ∨ status_norm ∈ ["unknown", "none"] then
      (0, 0, 0, Decision.ABSTAIN)
    else
      (0, 1, 1, Decision.ABSTAIN)

/-- Fields of an instance_results.jsonl record read by apply_instance_eval:
the "resolved" field when it is a bool, and the "resolved_status" field
when present. -/
structure InstanceEval where
  resolved : Option Bool
  resolved_status : Option String
deriving DecidableEq, Repr

/-- Fields of an output row of build_eval_records that apply_instance_eval
reads or updates. -/
structure Row where
  tests_passed : Nat
  tests_failed : Nat
  total_tests : Nat
  test_pass_rate : ℚ
  cri : ℚ
  sad_flag : Bool
  final_decision : Decision
  resolved : Option Bool
  resolved_status : Option String
  eval_status : Option String
deriving DecidableEq, Repr

/-- Normalization of the raw resolved_status field as performed by
apply_instance_eval (lines 344-349): strip then uppercase. -/
def normStatusRaw (ev : InstanceEval) : Option String :=
  ev.resolved_status.map (fun s => PyStr.upper (PyStr.strip s))

/-- Normalization of the resolved flag as performed by apply_instance_eval
(lines 351-357): a bool field wins, otherwise it is derived from the
normalized status, otherwise unknown. -/
def normResolved (ev : InstanceEval) : Option Bool :=
  match ev.resolved with
  | some b => some b
  | none =>
    match normStatusRaw ev with
    | some st => some (st = "RESOLVED")
    | none => none

/-- Defaulting of the normalized status (lines 359-360): an explicit
false resolved flag with no status becomes UNRESOLVED. -/
def normStatus (ev : InstanceEval) : Option String :=
  if normResolved ev = some false ∧ normStatusRaw ev = none then some "UNRESOLVED"
  else normStatusRaw ev

/-- Derivation of eval_status by apply_instance_eval (lines 362-368). -/
def evalStatusOf (ev : InstanceEval) : Option String :=
  if normResolved ev = some true then some "resolved"
  else if normStatus ev = some "UNRESOLVED" then some "unresolved"
  else if normStatus ev = some "PATCH_APPLY_FAILED" then some "error"
  else none

/-- Embedding of analyze_mini_swe_results.apply_instance_eval
(lines 329-404); an absent or empty instance_eval is the none case. -/
def apply_instance_eval (base_row : Row) (instance_eval : Option InstanceEval)
    (sad_flag : Bool) : Row :=
  match instance_eval with
  | none => base_row
  | some ev =>
    let resolved : Option Bool := normResolved ev
    let resolved_status : Option String := normStatus ev
    let eval_status : Option String := evalStatusOf ev
    let row1 : Row :=
      { base_row with resolved := resolved, resolved_status := resolved_status,
                      eval_status := eval_status }
    match eval_status with
    | none => row1
    | some _ =>
      if resolved = some true then
        { row1 with tests_passed := 1, tests_failed := 0, total_tests := 1,
                    test_pass_rate := 1, cri := 1,
                    final_decision := if sad_flag then Decision.VETO else Decision.OK }
      else
        { row1 with tests_passed := 0, tests_failed := 1, total_tests := 1,
                    test_pass_rate := 0, cri := 0, final_decision := Decision.ABSTAIN }

/-- Embedding of the per-record row construction in build_eval_records
(analyze_mini_swe_results.py lines 447-489), before the instance eval is
merged: metrics from the exit status, security penalty, and the local
final_decision rules. -/
def buildRow (status : Option String) (eval_result : Option EvalResult)
    (violations : List String) : Row :=
  let m := map_status_to_metrics status eval_result
  let tests_passed := m.1
  let tests_failed := m.2.1
  let total_tests := m.2.2.1
  let base_decision := m.2.2.2
  let pass_rate : ℚ := if total_tests > 0 then (tests_passed : ℚ) / (total_tests : ℚ) else 0
  let sad_flag : Bool := !violations.isEmpty
  let sec_penalty : ℚ := (1 / 10) * (violations.length : ℚ)
  let cri : ℚ := if total_tests > 0 then max 0 (min 1 (pass_rate - sec_penalty)) else 0
  let final_decision :=
    if sad_flag then Decision.VETO
    else if base_decision = Decision.OK ∧ (total_tests = 0 ∨ cri < 9 / 10) then Decision.ABSTAIN
    else base_decision
  { tests_passed := tests_passed, tests_failed := tests_failed, total_tests := total_tests,
    test_pass_rate := pass_rate, cri := cri, sad_flag := sad_flag,
    final_decision := final_decision, resolved := none, resolved_status := none,
    eval_status := none }

/-- Full per-record pipeline of build_eval_records (lines 447-491): build
the local row, then merge the SWE-bench instance eval. -/
def buildRecord (status : Option String) (eval_result : Option EvalResult)
    (violations : List String) (instance_eval : Option InstanceEval) : Row :=
  let row := buildRow status eval_result violations
  apply_instance_eval row instance_eval row.sad_flag

end Analyze

namespace Harness

/-- Characters matched by the regex class for whitespace in the parsing
regexes of parse_pytest_output (ASCII model). -/
def isSpaceChar (c : Char) : Bool :=
  c = ' ' || c = '\t' || c = '\n' || c = '\r' || c = '\x0b' || c = '\x0c'

/-- Numeric value of a list of decimal digit characters. -/
def digitsVal (ds : List Char) : Nat :=
  ds.foldl (fun n c => 10 * n + (c.toNat - 48)) 0

/-- Greedy match of a nonempty digit run at the head of the input,
returning its value and the remaining characters. -/
def takeDigits (s : List Char) : Option (Nat × List Char) :=
  let ds := s.takeWhile (fun c => c.isDigit)
  if ds.isEmpty then none else some (digitsVal ds, s.dropWhile (fun c => c.isDigit))

/-- Greedy match of a nonempty whitespace run at the head of the input. -/
def takeWs (s : List Char) : Option (List Char) :=
  let ws := s.takeWhile isSpaceChar
  if ws.isEmpty then none else some (s.dropWhile isSpaceChar)

/-- Match of digits, then whitespace, then the literal kw, at the head of
the input: one candidate position of the regex digits-whitespace-kw. -/
def tryNumKw (kw : List Char) (s : List Char) : Option (Nat × List Char) :=
  match takeDigits s with
  | none => none
  | some (n, r1) =>
    match takeWs r1 with
    | none => none
    | some r2 => if PyStr.isPre kw r2 then some (n, r2.drop kw.length) else none

/-- Leftmost match of the regex digits-whitespace-kw over the input,
mirroring re.search semantics for patterns shaped like a number before a
keyword. -/
def searchNumKw (kw : List Char) : List Char → Option (Nat × List Char)
  | [] => none
  | c :: cs =>
    match tryNumKw kw (c :: cs) with
    | some r => some r
    | none => searchNumKw kw cs

/-- Match of the optional suffix comma-whitespace-digits-whitespace-failed
immediately after a matched passed token, as in the first regex of
parse_pytest_output. -/
def tryFailedSuffix (s : List Char) : Option Nat :=
  match s with
  | ',' :: r1 =>
    match takeWs r1 with
    | none => none
    | some r2 =>
      match takeDigits r2 with
      | none => none
      | some (n, r3) =>
        match takeWs r3 with
        | none => none
        | some r4 => if PyStr.isPre (String.toList "failed") r4 then some n else none
  | _ => none

/-- Match of the literal failures= followed by a digit run at the head of
the input. -/
def tryFailuresEq (s : List Char) : Option Nat :=
  if PyStr.isPre (String.toList "failures=") s then
    (takeDigits (s.drop 9)).map (fun p => p.1)
  else none

/-- Rightmost match of failures= followed by digits within a segment,
mirroring the greedy dot-star before failures= in the second regex of
parse_pytest_output. -/
def lastFailures : List Char → Option Nat
  | [] => none
  | c :: cs =>
    match lastFailures cs with
    | some n => some n
    | none => tryFailuresEq (c :: cs)

/-- Leftmost match of the second regex of parse_pytest_output: the literal
FAILED, then any characters on the same line, then failures= and digits. -/
def searchFailedBlock : List Char → Option Nat
  | [] => none
  | c :: cs =>
    if PyStr.isPre (String.toList "FAILED") (c :: cs) then
      match lastFailures (((c :: cs).drop 6).takeWhile (fun ch => ch ≠ '\n')) with
      | some n => some n
      | none => searchFailedBlock cs
    else searchFailedBlock cs

/-- Match of the third regex of parse_pytest_output at the head of the
input: digits, whitespace, the literal failed-comma, whitespace, digits,
whitespace, passed. -/
def tryJest (s : List Char) : Option (Nat × Nat) :=
  match takeDigits s with
  | none => none
  | some (f, r1) =>
    match takeWs r1 with
    | none => none
    | some r2 =>
      if PyStr.isPre (String.toList "failed,") r2 then
        match takeWs (r2.drop 7) with
        | none => none
        | some r3 =>
          match takeDigits r3 with
          | none => none
          | some (p, r4) =>
            match takeWs r4 with
            | none => none
            | some r5 => if PyStr.isPre (String.toList "passed") r5 then some (f, p) else none
      else none

/-- Leftmost match of the third regex of parse_pytest_output. -/
def searchJest : List Char → Option (Nat × Nat)
  | [] => none
  | c :: cs =>
    match tryJest (c :: cs) with
    | some r => some r
    | none => searchJest cs

/-- Boolean substring containment used for the in-operator checks of the
fallback branch of parse_pytest_output. -/
def containsSub (pat : List Char) : List Char → Bool
  | [] => PyStr.isPre pat []
  | c :: cs => PyStr.isPre pat (c :: cs) || containsSub pat cs

/-- Embedding of harness.parse_pytest_output (harness.py lines 164-190):
returns (total_tests, tests_failed). -/
def parse_pytest_output (output : String) : Nat × Nat :=
  let s := output.toList
  match searchNumKw (String.toList "passed") s with
  | some (passed, rest) =>
    match tryFailedSuffix rest with
    | some failed => (passed + failed, failed)
    | none => (passed + 0, 0)
  | none =>
    match searchFailedBlock s with
    | some failed =>
      let passed := ((searchNumKw (String.toList "passed") s).map (fun p => p.1)).getD 0
      (passed + failed, failed)
    | none =>
      match searchJest s with
      | some (f, p) => (p + f, f)
      | none =>
        let low := s.map Char.toLower
        if containsSub (String.toList "passed") low && !containsSub (String.toList "fail") low
        then (1, 0) else (1, 1)

end Harness

namespace SweRunner

/-- Modelled from the spec: docker_sandbox.parse_pytest_sandbox_output is
imported by swe_runner.py but docker_sandbox.py is not in src; section 4.1
of the spec requires sandboxed test output to be parsed with the same
recognized shapes as native output, so it is modelled as
Harness.parse_pytest_output. -/
def parse_pytest_sandbox_output (output : String) : Nat × Nat :=
  Harness.parse_pytest_output output

/-- Embedding of swe_runner.run_swe_tests (swe_runner.py lines 254-290):
use_sandbox and tests_path come from the config and task, raw_output is
the raw runner output returned by the external test execution. -/
def run_swe_tests (use_sandbox : Bool) (tests_path : Option String)
    (raw_output : String) : Harness.CheckResults :=
  if use_sandbox then
    match tests_path with
    | none =>
      { total_tests := 0, tests_failed := 1,
        tests_output := "[SWE] Sandbox mode requires tests_path; none provided.",
        security_violations := [], linter_errors := [] }
    | some _ =>
      let r := parse_pytest_sandbox_output raw_output
      { total_tests := r.1, tests_failed := r.2, tests_output := raw_output,
        security_violations := [], linter_errors := [] }
  else
    let r := Harness.parse_pytest_output raw_output
    { total_tests := r.1, tests_failed := r.2, tests_output := raw_output,
      security_violations := [], linter_errors := [] }

end SweRunner

namespace Harness

/-- IterationRecord dataclass from harness.py. -/
structure IterationRecord where
  tau_step : Nat
  code_path : String
  checks : CheckResults
  metrics : Metrics
  decision : Decision
deriving DecidableEq, Repr

/-- WrappedResult dataclass from harness.py (model and task names omitted;
they do not affect control flow). -/
structure WrappedResult where
  iterations : List IterationRecord
  final_decision : Decision
  final_code_path : Option String
deriving DecidableEq, Repr

/-- Plateau test of run_wrapped (harness.py lines 384-389): after the new
record is appended the list holds at least two records exactly when the
accumulator before the append is nonempty, and the last two CRI values are
the accumulator tail and the new value. -/
def plateauHit (acc : List IterationRecord) (cri : ℚ) : Bool :=
  match acc.getLast? with
  | some prev => if |cri - prev.metrics.cri| < 1 / 20 then true else false
  | none => false

/-- Loop body of harness.run_wrapped (lines 349-389) over the remaining
tau steps: the external world (model call, patch application, check
aggregation) is abstracted as the step oracle giving the CheckResults
observed at each tau step; returns the iteration list and the decision of
an early break, if any. -/
def runSteps (step : Nat → CheckResults) (criOk : ℚ) (earlyStop : Bool) :
    List Nat → List IterationRecord → List IterationRecord × Option Decision
  | [], acc => (acc, none)
  | tau :: rest, acc =>
    let checks := step tau
    let metrics := compute_metrics checks tau
    let d := decide metrics checks criOk
    let acc' := acc ++ [{ tau_step := tau, code_path := "solution", checks := checks,
                          metrics := metrics, decision := d }]
    if d = Decision.OK ∨ d = Decision.VETO then (acc', some d)
    else if earlyStop && plateauHit acc metrics.cri then (acc', some d)
    else runSteps step criOk earlyStop rest acc'

/-- Embedding of harness.run_wrapped (harness.py lines 336-401): runs the
tau steps 1..tau_max with the loop body above and assembles the final
decision exactly as the Python epilogue does. -/
def run_wrapped (step : Nat → CheckResults) (tau_max : Nat) (criOk : ℚ)
    (early_stop_plateau : Bool) : WrappedResult :=
  let r := runSteps step criOk early_stop_plateau (List.range' 1 tau_max) []
  match r.2 with
  | some d => { iterations := r.1, final_decision := d, final_code_path := some "solution" }
  | none =>
    match r.1.getLast? with
    | some last =>
      { iterations := r.1, final_decision := last.decision,
        final_code_path := some last.code_path }
    | none => { iterations := r.1, final_decision := Decision.ABSTAIN, final_code_path := none }

/-- Decision the loop computes at a given tau step under a step oracle. -/
def stepDecision (step : Nat → CheckResults) (criOk : ℚ) (tau : Nat) : Decision :=
  decide (compute_metrics (step tau) tau) (step tau) criOk

/-- CRI the loop computes at a given tau step under a step oracle. -/
def stepCri (step : Nat → CheckResults) (tau : Nat) : ℚ :=
  (compute_metrics (step tau) tau).cri

end Harness

namespace AstSecurity

/-- Embedding of ast_security.run_ast_security_checks (ast_security.py
lines 130-167). The call to the Python parser and the AST visitor walk are
abstracted as the parse_ok argument: none models ast.parse raising
SyntaxError, some raw models a successful parse with raw the violation
list accumulated by SecurityVisitor together with the multi-write
heuristic tag. -/
def run_ast_security_checks (parse_ok : Option (List String))
    (active_rules : List String) : List String :=
  match parse_ok with
  | none => ["SYNTAX_ERROR_PREVENTS_SECURITY_SCAN"]
  | some raw =>
    let unique_violations := raw.dedup
    unique_violations.filter (fun v =>
      ("SQLI" ∈ active_rules ∧ PyStr.startsWith v "SQLI") ∨
      ("SECRETS" ∈ active_rules ∧ v = "HARDCODED_SECRETS") ∨
      ("MISSING_AUTH" ∈ active_rules ∧ v = "MISSING_AUTH_CHECK") ∨
      ("NO_TRANSACTION" ∈ active_rules ∧ v = "NO_TRANSACTION_FOR_MULTI_WRITE") ∨
      ("XSS" ∈ active_rules ∧ v = "POTENTIAL_XSS"))

end AstSecurity

namespace Analyze

/-- Whitespace-run split discarding empty pieces, as the Python
no-argument str.split used on the diff header line. -/
def pySplit (s : String) : List String :=
  PyStr.splitWs s

/-- Flush step of extract_security_violations_from_patch (lines 221-230):
scan the joined added lines of the current file when it is a Python file.
The scan argument abstracts the guarded call to run_ast_security_checks,
whose try-except yields either its result or the SECURITY_SCAN_ERROR tag. -/
def flushCurrent (scan : String → List String) (current_file : Option String)
    (current_lines : List String) : List String :=
  match current_file with
  | some f =>
    if PyStr.endsWith f ".py" && !current_lines.isEmpty then
      scan (String.intercalate "\n" current_lines)
    else []
  | none => []

/-- Line walk of extract_security_violations_from_patch (lines 232-251). -/
def extractLoop (scan : String → List String) :
    List String → Option String → List String → List String → List String
  | [], cf, cl, acc => acc ++ flushCurrent scan cf cl
  | line :: rest, cf, cl, acc =>
    if PyStr.startsWith line "diff --git " then
      let acc' := acc ++ flushCurrent scan cf cl
      let parts := pySplit line
      let cf' :=
        if parts.length ≥ 4 then
          let path_b := (parts.get? 3).getD ""
          some (if PyStr.startsWith path_b "b/" then PyStr.dropChars path_b 2 else path_b)
        else none
      extractLoop scan rest cf' [] acc'
    else if PyStr.startsWith line "+++ " then
      let path := PyStr.strip (PyStr.dropChars line 4)
      let cf' := some (if PyStr.startsWith path "b/" then PyStr.dropChars path 2 else path)
      extractLoop scan rest cf' cl acc
    else if PyStr.startsWith line "+" && !PyStr.startsWith line "+++" then
      extractLoop scan rest cf (cl ++ [PyStr.dropChars line 1]) acc
    else
      extractLoop scan rest cf cl acc

/-- Embedding of
analyze_mini_swe_results.extract_security_violations_from_patch
(lines 200-254): walk the unified diff, scan added Python lines, and
return the deduplicated sorted violation list. Returns a plain list: the
source has no scan-failed component in its return value. -/
def extract_security_violations_from_patch (scan : String → List String)
    (patch : String) : List String :=
  if patch = "" then []
  else
    let violations := extractLoop scan (PyStr.splitLines patch) none [] []
    PyStr.sortStrings violations.dedup

end Analyze

section SharedInputs

/-- Active rule set passed to the scanner by
extract_security_violations_from_patch (line 214). -/
def sweActiveRules : List String :=
  ["SQLI", "SECRETS", "MISSING_AUTH", "NO_TRANSACTION", "XSS", "WEAK_RNG"]

/-- Scanner behavior on candidate text that the Python parser rejects:
run_ast_security_checks with a failing parse, as ast_security.py line 143. -/
def failingScan : String → List String :=
  fun _ => AstSecurity.run_ast_security_checks none sweActiveRules

/-- Unified diff whose added Python lines are not parseable source, taken
from the repository test suite. -/
def patchSyntaxError : String :=
  "diff --git a/file.py b/file.py\n--- a/file.py\n+++ b/file.py\n@@\n+def broken(:\n+    pass"

/-- Base row with neutral local metrics, used as a concrete
apply_instance_eval input. -/
def baseRow0 : Analyze.Row :=
  { tests_passed := 0, tests_failed := 0, total_tests := 0, test_pass_rate := 0,
    cri := 0, sad_flag := false, final_decision := Decision.ABSTAIN,
    resolved := none, resolved_status := none, eval_status := none }

end SharedInputs

/-- Specification-side computeMetrics, written from the spec risk-metrics
contract: passRate as stated, securityPenalty one tenth per violation,
lintPenalty one fiftieth per linter error, cri clamped to the unit
interval, sadFlag when any violation exists. -/
def computeMetricsSpec (checks : Harness.CheckResults) (tauStep : Nat) : Harness.Metrics :=
  let passRate : ℚ :=
    if checks.total_tests > 0 then
      ((checks.total_tests : ℚ) - (checks.tests_failed : ℚ)) / (checks.total_tests : ℚ)
    else 0
  let securityPenalty : ℚ := (1 / 10) * (checks.security_violations.length : ℚ)
  let lintPenalty : ℚ := (1 / 50) * (checks.linter_errors.length : ℚ)
  { cri := max 0 (min 1 (passRate - securityPenalty - lintPenalty)),
    sad_flag := decide (0 < checks.security_violations.length),
    tau := tauStep }

/-- C6: compute_metrics implements exactly the specified passRate, clamp
and sadFlag formulas, and the returned cri lies in the unit interval for
every CheckResults, including totalTests zero. -/
theorem c6_compute_metrics_spec :
    (∀ checks tau_step, Harness.compute_metrics checks tau_step = computeMetricsSpec checks tau_step) ∧
    (∀ checks tau_step, 0 ≤ (Harness.compute_metrics checks tau_step).cri ∧
      (Harness.compute_metrics checks tau_step).cri ≤ 1) := by
  constructor
  · intro checks tau_step
    have hsad : (!checks.security_violations.isEmpty) =
        decide (0 < checks.security_violations.length) := by
      cases checks.security_violations with
      | nil => rfl
      | cons a as => exact (decide_eq_true (Nat.succ_pos as.length)).symm
    simp [Harness.compute_metrics, computeMetricsSpec, hsad]
  · intro checks tau_step
    constructor
    · simp only [Harness.compute_metrics]
      exact le_max_left 0 _
    · simp only [Harness.compute_metrics]
      exact max_le (by norm_num) (min_le_left 1 _)

/-- C10: whenever compute_metrics reports sad_flag, the reported cri is at
most nine tenths, so a SAD-flagged iteration can never strictly exceed the
default OK threshold. -/
theorem c10_sad_caps_cri (checks : Harness.CheckResults) (tau_step : Nat)
    (h : (Harness.compute_metrics checks tau_step).sad_flag = true) :
    (Harness.compute_metrics checks tau_step).cri ≤ 9 / 10 := by
  have hne : checks.security_violations ≠ [] := by
    intro hnil
    simp [Harness.compute_metrics, hnil] at h
  have hv : 1 ≤ (checks.security_violations.length : ℚ) := by
    have := List.length_pos.mpr hne
    exact_mod_cast this
  have hlp : (0 : ℚ) ≤ (1 / 50) * (checks.linter_errors.length : ℚ) := by positivity
  have hpr : (if checks.total_tests > 0 then
      ((checks.total_tests : ℚ) - (checks.tests_failed : ℚ)) / (checks.total_tests : ℚ)
      else 0) ≤ 1 := by
    split
    · next hpos =>
      have hq : (0 : ℚ) < (checks.total_tests : ℚ) := by exact_mod_cast hpos
      rw [div_le_one hq]
      have : (0 : ℚ) ≤ (checks.tests_failed : ℚ) := by positivity
      linarith
    · norm_num
  simp only [Harness.compute_metrics]
  refine max_le (by norm_num) (le_trans (min_le_right 1 _) ?_)
  have hsp : (1 / 10 : ℚ) ≤ (1 / 10) * (checks.security_violations.length : ℚ) := by
    nlinarith
  linarith

/-- Witness for C10 at a concrete flagged CheckResults. -/
theorem c10_witness :
    (Harness.compute_metrics ⟨10, 0, "", ["SQLI_FSTRING"], []⟩ 1).sad_flag = true ∧
    (Harness.compute_metrics ⟨10, 0, "", ["SQLI_FSTRING"], []⟩ 1).cri ≤ 9 / 10 :=
  ⟨by decide, c10_sad_caps_cri ⟨10, 0, "", ["SQLI_FSTRING"], []⟩ 1 (by decide)⟩

/-- C9: when a ground-truth eval result is present, map_status_to_metrics
ignores the mini-SWE exit status entirely: any two statuses give the same
(tests_passed, tests_failed, total_tests, decision). -/
theorem c9_status_noninterference (s1 s2 : Option String) (ev : Analyze.EvalResult) :
    Analyze.map_status_to_metrics s1 (some ev) = Analyze.map_status_to_metrics s2 (some ev) := rfl

/-- C1: the code has no scan-failed channel: a candidate the scanner
cannot parse surfaces as the violation tag of ast_security.py line 143,
which sets sad_flag, and the reconciled decision for such a record with a
resolved ground truth is VETO, not the ABSTAIN the claim requires. -/
theorem c1_scan_failure_vetoes_instead_of_abstain :
    AstSecurity.run_ast_security_checks none sweActiveRules =
      ["SYNTAX_ERROR_PREVENTS_SECURITY_SCAN"] ∧
    (Analyze.buildRecord (some "Submitted") none
      (Analyze.extract_security_violations_from_patch failingScan patchSyntaxError)
      (some { resolved := some true, resolved_status := some "RESOLVED" })).final_decision =
      Decision.VETO := by
  constructor
  · rfl
  · decide

/-- C2: a syntax error in the scanned text is reported by
run_ast_security_checks as a nonempty violation-tag list, and
extract_security_violations_from_patch forwards it as a plain violation
list that raises sad_flag; no scan-failed flag with an empty violation set
is produced anywhere. -/
theorem c2_scan_failure_reported_as_violation_tag :
    Analyze.extract_security_violations_from_patch failingScan patchSyntaxError =
      ["SYNTAX_ERROR_PREVENTS_SECURITY_SCAN"] ∧
    (Analyze.buildRow (some "Submitted") none
      (Analyze.extract_security_violations_from_patch failingScan patchSyntaxError)).sad_flag =
      true := by
  constructor
  · decide
  · decide

/-- C3 counterexample: a record with a security violation (sad_flag true)
whose ground truth reports unresolved is reconciled to ABSTAIN, not the
VETO the claim requires for every sad-flagged input. -/
theorem c3_counterexample :
    (Analyze.buildRecord (some "Submitted") none ["SQLI_FSTRING"]
      (some { resolved := some false, resolved_status := some "UNRESOLVED" })).sad_flag = true ∧
    (Analyze.buildRecord (some "Submitted") none ["SQLI_FSTRING"]
      (some { resolved := some false, resolved_status := some "UNRESOLVED" })).final_decision =
      Decision.ABSTAIN := by
  constructor
  · decide
  · decide

/-- C3 amended: sadFlag forces VETO in the local decision policy, in the
local row of build_eval_records, and under a resolved ground truth; but a
ground truth that is present and not resolved (unresolved or error)
reconciles to ABSTAIN even when sadFlag is true. -/
theorem c3_sad_veto_amended :
    (∀ metrics checks thr, metrics.sad_flag = true →
      Harness.decide metrics checks thr = Decision.VETO) ∧
    (∀ status ev viols, viols ≠ ([] : List String) →
      (Analyze.buildRow status ev viols).final_decision = Decision.VETO) ∧
    (∀ row ev sad, Analyze.normResolved ev = some true → sad = true →
      (Analyze.apply_instance_eval row (some ev) sad).final_decision = Decision.VETO) ∧
    (∀ row ev sad,
      Analyze.evalStatusOf ev = some "unresolved" ∨ Analyze.evalStatusOf ev = some "error" →
      (Analyze.apply_instance_eval row (some ev) sad).final_decision = Decision.ABSTAIN) := by
  refine ⟨?_, ?_, ?_, ?_⟩
  · intro metrics checks thr h
    simp [Harness.decide, h]
  · intro status ev viols hne
    cases viols with
    | nil => exact absurd rfl hne
    | cons a as => simp [Analyze.buildRow]
  · intro row ev sad hres hsad
    have hst : Analyze.evalStatusOf ev = some "resolved" := by
      simp [Analyze.evalStatusOf, hres]
    simp [Analyze.apply_instance_eval, hst, hres, hsad]
  · intro row ev sad h
    have hres : Analyze.normResolved ev ≠ some true := by
      intro hres
      rcases h with h | h <;> simp [Analyze.evalStatusOf, hres] at h
    rcases h with h | h <;> simp [Analyze.apply_instance_eval, h, hres]

/-- Witness for C3 amended, applying each conjunct at concrete inputs. -/
theorem c3_witness :
    Harness.decide { cri := 1, sad_flag := true, tau := 1 } {} (9 / 10) = Decision.VETO ∧
    (Analyze.buildRow (some "Submitted") none ["SQLI_FSTRING"]).final_decision = Decision.VETO ∧
    (Analyze.apply_instance_eval baseRow0
      (some { resolved := some true, resolved_status := some "RESOLVED" })
      true).final_decision = Decision.VETO ∧
    (Analyze.apply_instance_eval baseRow0
      (some { resolved := some false, resolved_status := some "UNRESOLVED" })
      true).final_decision = Decision.ABSTAIN :=
  ⟨c3_sad_veto_amended.1 { cri := 1, sad_flag := true, tau := 1 } {} (9 / 10) rfl,
   c3_sad_veto_amended.2.1 (some "Submitted") none ["SQLI_FSTRING"] (by decide),
   c3_sad_veto_amended.2.2.1 baseRow0
     { resolved := some true, resolved_status := some "RESOLVED" } true (by decide) rfl,
   c3_sad_veto_amended.2.2.2 baseRow0
     { resolved := some false, resolved_status := some "UNRESOLVED" } true
     (Or.inl (by decide))⟩

/-- Specification-side evalStatus derivation, written from the spec data
model in its stated priority order: resolved true gives resolved, then
status UNRESOLVED gives unresolved, then status PATCH_APPLY_FAILED gives
error, otherwise unknown. -/
def evalStatusSpec (resolved : Option Bool) (resolved_status : Option String) : Option String :=
  if resolved = some true then some "resolved"
  else if resolved_status = some "UNRESOLVED" then some "unresolved"
  else if resolved_status = some "PATCH_APPLY_FAILED" then some "error"
  else none

/-- C8 counterexample: an oracle record that reports resolvedStatus
PATCH_APPLY_FAILED together with resolved true is reconciled to OK (the
resolved rule wins), so the decision is not ABSTAIN as the claim requires
for every PATCH_APPLY_FAILED record. -/
theorem c8_counterexample :
    (Analyze.apply_instance_eval baseRow0
      (some { resolved := some true, resolved_status := some "PATCH_APPLY_FAILED" })
      false).resolved_status = some "PATCH_APPLY_FAILED" ∧
    (Analyze.apply_instance_eval baseRow0
      (some { resolved := some true, resolved_status := some "PATCH_APPLY_FAILED" })
      false).final_decision = Decision.OK := by
  constructor
  · decide
  · decide

/-- C8 amended: apply_instance_eval derives eval_status exactly per the
spec priority order over the normalized oracle fields, and every record
whose oracle reports PATCH_APPLY_FAILED without also reporting resolved
true is reconciled to ABSTAIN. -/
theorem c8_eval_status_amended :
    (∀ row ev sad, (Analyze.apply_instance_eval row (some ev) sad).eval_status =
      evalStatusSpec (Analyze.normResolved ev) (Analyze.normStatus ev)) ∧
    (∀ row ev sad, Analyze.normStatus ev = some "PATCH_APPLY_FAILED" →
      Analyze.normResolved ev ≠ some true →
      (Analyze.apply_instance_eval row (some ev) sad).final_decision = Decision.ABSTAIN) := by
  constructor
  · intro row ev sad
    have hspec : Analyze.evalStatusOf ev =
        evalStatusSpec (Analyze.normResolved ev) (Analyze.normStatus ev) := rfl
    rcases h : Analyze.evalStatusOf ev with _ | v
    · simp only [Analyze.apply_instance_eval, h]
      rw [← h, hspec]
    · by_cases hres : Analyze.normResolved ev = some true
      · simp only [Analyze.apply_instance_eval, h, if_pos hres]
        rw [← h, hspec, hres]
      · simp only [Analyze.apply_instance_eval, h, if_neg hres]
        rw [← h, hspec]
  · intro row ev sad hst hres
    have hev : Analyze.evalStatusOf ev = some "error" := by
      simp [Analyze.evalStatusOf, hst, hres]
    simp [Analyze.apply_instance_eval, hev, hres]

/-- Witness for C8 amended at a concrete PATCH_APPLY_FAILED oracle
record. -/
theorem c8_witness :
    (Analyze.apply_instance_eval baseRow0
      (some { resolved := none, resolved_status := some "PATCH_APPLY_FAILED" })
      false).final_decision = Decision.ABSTAIN :=
  c8_eval_status_amended.2 baseRow0
    { resolved := none, resolved_status := some "PATCH_APPLY_FAILED" } false
    (by decide) (by decide)

/-- Helper: parse_pytest_output never reports more failed tests than total
tests, whichever branch produced the result. -/
lemma parse_failed_le_total (out : String) :
    (Harness.parse_pytest_output out).2 ≤ (Harness.parse_pytest_output out).1 := by
  simp only [Harness.parse_pytest_output]
  split
  · split
    · exact Nat.le_add_left _ _
    · exact Nat.zero_le _
  · split
    · exact Nat.le_add_left _ _
    · split
      · exact Nat.le_add_left _ _
      · split
        · exact Nat.zero_le _
        · exact Nat.le.refl

/-- C4 counterexample: the sandbox path of run_swe_tests with no
tests_path returns the could-not-execute sentinel total_tests 0 with
tests_failed 1, violating the invariant. -/
theorem c4_counterexample :
    ¬ ((SweRunner.run_swe_tests true none "").tests_failed ≤
       (SweRunner.run_swe_tests true none "").total_tests) := by decide

/-- C4 amended: the parser always satisfies testsFailed at most
totalTests, and every run_swe_tests path satisfies the invariant except
the sandbox could-not-execute sentinel, which returns total_tests 0 and
tests_failed 1. -/
theorem c4_tests_failed_le_total_amended :
    (∀ out, (Harness.parse_pytest_output out).2 ≤ (Harness.parse_pytest_output out).1) ∧
    (∀ use_sandbox tests_path out, (use_sandbox = true → tests_path ≠ none) →
      (SweRunner.run_swe_tests use_sandbox tests_path out).tests_failed ≤
        (SweRunner.run_swe_tests use_sandbox tests_path out).total_tests) ∧
    (∀ out, SweRunner.run_swe_tests true none out =
      { total_tests := 0, tests_failed := 1,
        tests_output := "[SWE] Sandbox mode requires tests_path; none provided.",
        security_violations := [], linter_errors := [] }) := by
  refine ⟨parse_failed_le_total, ?_, ?_⟩
  · intro use_sandbox tests_path out h
    cases use_sandbox with
    | false => simpa [SweRunner.run_swe_tests] using parse_failed_le_total out
    | true =>
      cases tests_path with
      | none => exact absurd rfl (h rfl)
      | some tp =>
        simpa [SweRunner.run_swe_tests, SweRunner.parse_pytest_sandbox_output] using
          parse_failed_le_total out
  · intro out
    rfl

/-- Witness for C4 amended, applying the invariant at concrete runner
outputs. -/
theorem c4_witness :
    (Harness.parse_pytest_output "5 passed, 2 failed in 1.23s").2 ≤
      (Harness.parse_pytest_output "5 passed, 2 failed in 1.23s").1 ∧
    (SweRunner.run_swe_tests false none "5 passed, 2 failed in 1.23s").tests_failed ≤
      (SweRunner.run_swe_tests false none "5 passed, 2 failed in 1.23s").total_tests :=
  ⟨c4_tests_failed_le_total_amended.1 "5 passed, 2 failed in 1.23s",
   c4_tests_failed_le_total_amended.2.1 false none "5 passed, 2 failed in 1.23s"
     (by decide)⟩

/-- Helper: a takeWhile and dropWhile split of a run followed by a
non-matching head. -/
lemma takeWhile_dropWhile_split (p : Char → Bool) :
    ∀ (ds rest : List Char), (∀ c ∈ ds, p c = true) →
      (∀ c, rest.head? = some c → p c = false) →
      ((ds ++ rest).takeWhile p = ds ∧ (ds ++ rest).dropWhile p = rest) := by
  intro ds
  induction ds with
  | nil =>
    intro rest hds hrest
    cases rest with
    | nil => exact ⟨rfl, rfl⟩
    | cons r rs =>
      have hr := hrest r rfl
      simp [List.takeWhile_cons, List.dropWhile_cons, hr]
  | cons d t ih =>
    intro rest hds hrest
    have hd : p d = true := hds d (List.mem_cons_self d t)
    have ht := ih rest (fun c hc => hds c (List.mem_cons_of_mem d hc)) hrest
    simp [List.takeWhile_cons, List.dropWhile_cons, hd, ht.1, ht.2]

/-- Helper: regex whitespace characters are not digits. -/
lemma space_not_digit {c : Char} (h : Harness.isSpaceChar c = true) : c.isDigit = false := by
  simp [Harness.isSpaceChar] at h
  rcases h with ((((rfl | rfl) | rfl) | rfl) | rfl) | rfl <;> decide

/-- Helper: digit characters are not regex whitespace. -/
lemma digit_not_space {c : Char} (h : c.isDigit = true) : Harness.isSpaceChar c = false := by
  cases hs : Harness.isSpaceChar c with
  | false => rfl
  | true => rw [space_not_digit hs] at h; exact absurd h (by decide)

/-- Helper: greedy digit matching over a digit run followed by a
non-digit. -/
lemma takeDigits_append (ds rest : List Char) (hne : ds ≠ [])
    (hdig : ∀ c ∈ ds, c.isDigit = true)
    (hrest : ∀ c, rest.head? = some c → c.isDigit = false) :
    Harness.takeDigits (ds ++ rest) = some (Harness.digitsVal ds, rest) := by
  obtain ⟨ht, hd⟩ := takeWhile_dropWhile_split (fun c => c.isDigit) ds rest hdig hrest
  unfold Harness.takeDigits
  rw [ht, hd]
  cases ds with
  | nil => exact absurd rfl hne
  | cons d t => simp

/-- Helper: greedy whitespace matching over a single space followed by a
non-space. -/
lemma takeWs_cons_space (l : List Char)
    (hl : ∀ c, l.head? = some c → Harness.isSpaceChar c = false) :
    Harness.takeWs (' ' :: l) = some l := by
  obtain ⟨ht, hd⟩ := takeWhile_dropWhile_split Harness.isSpaceChar [' '] l
    (by intro c hc; simp at hc; subst hc; decide) hl
  unfold Harness.takeWs
  rw [show ((' ' :: l : List Char)) = [' '] ++ l from rfl, ht, hd]
  simp


/-- Helper: once the first regex of parse_pytest_output matches, the
result is determined by the optional failed suffix alone. -/
lemma parse_eq_of_searchNumKw (out : String) (p : Nat) (rest : List Char)
    (h : Harness.searchNumKw (String.toList "passed") out.toList = some (p, rest)) :
    Harness.parse_pytest_output out =
      (match Harness.tryFailedSuffix rest with
       | some f => (p + f, f)
       | none => (p + 0, 0)) := by
  simp only [Harness.parse_pytest_output]
  rw [h]

/-- Helper: the first shape with an explicit failed suffix parses to
(passed plus failed, failed) for any digit strings. -/
lemma parse_shape1_with_failed (ds fs tail : List Char) (hds : ds ≠ [])
    (hdigds : ∀ c ∈ ds, c.isDigit = true)
    (hfs : fs ≠ []) (hdigfs : ∀ c ∈ fs, c.isDigit = true) :
    Harness.parse_pytest_output ⟨ds ++ (" passed, ".toList ++ (fs ++ (" failed".toList ++ tail)))⟩ =
      (Harness.digitsVal ds + Harness.digitsVal fs, Harness.digitsVal fs) := by
  have hdig1 : ∀ c, (" passed, ".toList ++ (fs ++ (" failed".toList ++ tail))).head? = some c →
      c.isDigit = false := by
    intro c hc
    simp at hc
    subst hc
    decide
  have htd1 := takeDigits_append ds (" passed, ".toList ++ (fs ++ (" failed".toList ++ tail)))
    hds hdigds hdig1
  have hTry : Harness.tryNumKw ("passed".toList)
      (ds ++ (" passed, ".toList ++ (fs ++ (" failed".toList ++ tail)))) =
      some (Harness.digitsVal ds, ',' :: ' ' :: (fs ++ (" failed".toList ++ tail))) := by
    unfold Harness.tryNumKw
    rw [htd1]
    rfl
  have hdig2 : ∀ c, (" failed".toList ++ tail).head? = some c → c.isDigit = false := by
    intro c hc
    simp at hc
    subst hc
    decide
  have htd2 := takeDigits_append fs (" failed".toList ++ tail) hfs hdigfs hdig2
  have hSuf : Harness.tryFailedSuffix (',' :: ' ' :: (fs ++ (" failed".toList ++ tail))) =
      some (Harness.digitsVal fs) := by
    have hws : Harness.takeWs (' ' :: (fs ++ (" failed".toList ++ tail))) =
        some (fs ++ (" failed".toList ++ tail)) := by
      apply takeWs_cons_space
      intro c hc
      cases fs with
      | nil => exact absurd rfl hfs
      | cons f ft =>
        simp at hc
        subst hc
        exact digit_not_space (hdigfs f (List.mem_cons_self f ft))
    show (match Harness.takeWs (' ' :: (fs ++ (" failed".toList ++ tail))) with
      | none => none
      | some r2 =>
        match Harness.takeDigits r2 with
        | none => none
        | some (n, r3) =>
          match Harness.takeWs r3 with
          | none => none
          | some r4 => if PyStr.isPre (String.toList "failed") r4 then some n else none) =
      some (Harness.digitsVal fs)
    simp only [hws, htd2]
    rfl
  obtain ⟨d, dt, rfl⟩ : ∃ d dt, ds = d :: dt := by
    cases ds with
    | nil => exact absurd rfl hds
    | cons d dt => exact ⟨d, dt, rfl⟩
  have hSearch : Harness.searchNumKw ("passed".toList)
      ((d :: dt) ++ (" passed, ".toList ++ (fs ++ (" failed".toList ++ tail)))) =
      some (Harness.digitsVal (d :: dt), ',' :: ' ' :: (fs ++ (" failed".toList ++ tail))) := by
    rw [List.cons_append]
    rw [Harness.searchNumKw]
    rw [← List.cons_append, hTry]
  have hmain := parse_eq_of_searchNumKw
    ⟨(d :: dt) ++ (" passed, ".toList ++ (fs ++ (" failed".toList ++ tail)))⟩
    (Harness.digitsVal (d :: dt)) (',' :: ' ' :: (fs ++ (" failed".toList ++ tail))) hSearch
  exact hmain.trans (by rw [hSuf])

/-- Helper: a passed token whose continuation does not match the failed
suffix parses to (passed, 0) whatever else the output contains. -/
lemma parse_shape1_no_failed (ds tail : List Char) (hds : ds ≠ [])
    (hdigds : ∀ c ∈ ds, c.isDigit = true)
    (htail : Harness.tryFailedSuffix tail = none) :
    Harness.parse_pytest_output ⟨ds ++ (" passed".toList ++ tail)⟩ =
      (Harness.digitsVal ds, 0) := by
  have hdig1 : ∀ c, (" passed".toList ++ tail).head? = some c → c.isDigit = false := by
    intro c hc
    simp at hc
    subst hc
    decide
  have htd1 := takeDigits_append ds (" passed".toList ++ tail) hds hdigds hdig1
  have hTry : Harness.tryNumKw ("passed".toList) (ds ++ (" passed".toList ++ tail)) =
      some (Harness.digitsVal ds, tail) := by
    unfold Harness.tryNumKw
    rw [htd1]
    rfl
  obtain ⟨d, dt, rfl⟩ : ∃ d dt, ds = d :: dt := by
    cases ds with
    | nil => exact absurd rfl hds
    | cons d dt => exact ⟨d, dt, rfl⟩
  have hSearch : Harness.searchNumKw ("passed".toList) ((d :: dt) ++ (" passed".toList ++ tail)) =
      some (Harness.digitsVal (d :: dt), tail) := by
    rw [List.cons_append]
    rw [Harness.searchNumKw]
    rw [← List.cons_append, hTry]
  have hmain := parse_eq_of_searchNumKw ⟨(d :: dt) ++ (" passed".toList ++ tail)⟩
    (Harness.digitsVal (d :: dt)) tail hSearch
  refine hmain.trans ?_
  rw [htail]
  rfl

/-- Helper: when none of the three regexes matches anywhere, the explicit
fallback rule decides by the success and failure indicators. -/
lemma parse_fallback_rule (out : String)
    (h1 : Harness.searchNumKw (String.toList "passed") out.toList = none)
    (h2 : Harness.searchFailedBlock out.toList = none)
    (h3 : Harness.searchJest out.toList = none) :
    Harness.parse_pytest_output out =
      (if Harness.containsSub (String.toList "passed") (out.toList.map Char.toLower) &&
          !Harness.containsSub (String.toList "fail") (out.toList.map Char.toLower)
       then (1, 0) else (1, 1)) := by
  simp only [Harness.parse_pytest_output]
  simp only [h1, h2, h3]

/-- C5 amended: the passed-token regex is tried first and recognizes
shape one for any numbers; because it also matches any output that merely
contains a passed token, a FAILED failures line combined with a separate
passed token yields (passed, 0), and the Jest order failed-comma-passed
yields (passed, 0); a FAILED failures line with no passed token yields
(n, n); the explicit fallback returns (1, 0) exactly when the lowercased
text contains passed and no fail, else (1, 1). -/
theorem c5_parse_shapes_amended :
    (∀ ds fs tail : List Char, ds ≠ [] → (∀ c ∈ ds, c.isDigit = true) → fs ≠ [] →
      (∀ c ∈ fs, c.isDigit = true) →
      Harness.parse_pytest_output
          ⟨ds ++ (" passed, ".toList ++ (fs ++ (" failed".toList ++ tail)))⟩ =
        (Harness.digitsVal ds + Harness.digitsVal fs, Harness.digitsVal fs)) ∧
    (∀ ds tail : List Char, ds ≠ [] → (∀ c ∈ ds, c.isDigit = true) →
      Harness.tryFailedSuffix tail = none →
      Harness.parse_pytest_output ⟨ds ++ (" passed".toList ++ tail)⟩ =
        (Harness.digitsVal ds, 0)) ∧
    Harness.parse_pytest_output "Ran 5 tests in 0.1s\n\nFAILED (failures=2)" = (2, 2) ∧
    Harness.parse_pytest_output "3 passed\nFAILED (failures=2)" = (3, 0) ∧
    Harness.parse_pytest_output "Tests: 2 failed, 5 passed, 7 total" = (5, 0) ∧
    (∀ out, Harness.searchNumKw (String.toList "passed") out.toList = none →
      Harness.searchFailedBlock out.toList = none →
      Harness.searchJest out.toList = none →
      Harness.parse_pytest_output out =
        (if Harness.containsSub (String.toList "passed") (out.toList.map Char.toLower) &&
            !Harness.containsSub (String.toList "fail") (out.toList.map Char.toLower)
         then (1, 0) else (1, 1))) :=
  ⟨parse_shape1_with_failed, parse_shape1_no_failed, by decide, by decide, by decide,
   parse_fallback_rule⟩

/-- Witness for C5 amended at concrete digit strings. -/
theorem c5_witness :
    Harness.parse_pytest_output
        ⟨['4', '2'] ++ (" passed, ".toList ++ (['7'] ++ (" failed".toList ++ " in 1.0s".toList)))⟩ =
      (Harness.digitsVal ['4', '2'] + Harness.digitsVal ['7'], Harness.digitsVal ['7']) :=
  c5_parse_shapes_amended.1 ['4', '2'] ['7'] (" in 1.0s".toList)
    (by decide) (by decide) (by decide) (by decide)

/-- C5 counterexample: the Jest shape with failed 2 and passed 5 is
parsed as (5, 0), not the (7, 2) the claim requires. -/
theorem c5_counterexample :
    Harness.parse_pytest_output "Tests: 2 failed, 5 passed, 7 total" ≠ (7, 2) ∧
    Harness.parse_pytest_output "Tests: 2 failed, 5 passed, 7 total" = (5, 0) := by
  constructor
  · decide
  · decide

/-- Helper: the decision the loop computes at a tau step, folded into its
name. -/
lemma stepDecisionDef (step : Nat → Harness.CheckResults) (criOk : ℚ) (τ : Nat) :
    Harness.decide (Harness.compute_metrics (step τ) τ) (step τ) criOk =
      Harness.stepDecision step criOk τ := rfl

/-- Helper: the CRI the loop computes at a tau step, folded into its
name. -/
lemma stepCriDef (step : Nat → Harness.CheckResults) (τ : Nat) :
    (Harness.compute_metrics (step τ) τ).cri = Harness.stepCri step τ := rfl

/-- Helper: if the loop reaches step t without an earlier terminal
decision or plateau, and step t is non-terminal with a CRI within the
plateau epsilon of step t minus one, the loop body returns at step t with
exactly t iteration records and the decision of step t. -/
lemma runSteps_plateau_stop (step : Nat → Harness.CheckResults) (criOk : ℚ) (t : Nat)
    (ht : 2 ≤ t)
    (htermO : Harness.stepDecision step criOk t ≠ Decision.OK)
    (htermV : Harness.stepDecision step criOk t ≠ Decision.VETO)
    (hpl : |Harness.stepCri step t - Harness.stepCri step (t - 1)| < 1 / 20) :
    ∀ k a m (acc : List Harness.IterationRecord), a + k = t → 1 ≤ a → t < a + m →
      acc.length = a - 1 →
      (∀ prev, acc.getLast? = some prev → prev.metrics.cri = Harness.stepCri step (a - 1)) →
      (2 ≤ a → acc ≠ []) →
      (∀ τ, a ≤ τ → τ < t →
        (Harness.stepDecision step criOk τ ≠ Decision.OK ∧
         Harness.stepDecision step criOk τ ≠ Decision.VETO) ∧
        (2 ≤ τ → ¬ |Harness.stepCri step τ - Harness.stepCri step (τ - 1)| < 1 / 20)) →
      ∃ l, Harness.runSteps step criOk true (List.range' a m) acc =
        (l, some (Harness.stepDecision step criOk t)) ∧ l.length = t := by
  intro k
  induction k with
  | zero =>
    intro a m acc hak ha ham hlen hlast hne hsteps
    obtain rfl : a = t := by omega
    obtain ⟨m', rfl⟩ : ∃ m', m = m' + 1 := ⟨m - 1, by omega⟩
    rw [List.range'_succ a m' 1]
    simp only [Harness.runSteps, stepDecisionDef, stepCriDef]
    rw [if_neg (not_or.mpr ⟨htermO, htermV⟩)]
    have hpltrue : Harness.plateauHit acc (Harness.stepCri step a) = true := by
      obtain ⟨prev, hprev⟩ : ∃ prev, acc.getLast? = some prev := by
        cases hl : acc.getLast? with
        | none => exact absurd (List.getLast?_eq_none_iff.mp hl) (hne ht)
        | some x => exact ⟨x, rfl⟩
      unfold Harness.plateauHit
      simp only [hprev]
      rw [hlast prev hprev, if_pos hpl]
    have hcond : (true && Harness.plateauHit acc (Harness.stepCri step a)) = true := by
      rw [hpltrue]
      rfl
    rw [if_pos hcond]
    refine ⟨_, rfl, ?_⟩
    simp only [List.length_append, List.length_cons, List.length_nil, hlen]
    omega
  | succ k ih =>
    intro a m acc hak ha ham hlen hlast hne hsteps
    obtain ⟨m', rfl⟩ : ∃ m', m = m' + 1 := ⟨m - 1, by omega⟩
    rw [List.range'_succ a m' 1]
    simp only [Harness.runSteps, stepDecisionDef, stepCriDef]
    have hstep_a := hsteps a le_rfl (by omega)
    rw [if_neg (not_or.mpr hstep_a.1)]
    have hplfalse : Harness.plateauHit acc (Harness.stepCri step a) = false := by
      by_cases ha1 : a = 1
      · subst ha1
        have : acc = [] := List.length_eq_zero.mp (by omega)
        subst this
        rfl
      · have h2a : 2 ≤ a := by omega
        obtain ⟨prev, hprev⟩ : ∃ prev, acc.getLast? = some prev := by
          cases hl : acc.getLast? with
          | none => exact absurd (List.getLast?_eq_none_iff.mp hl) (hne h2a)
          | some x => exact ⟨x, rfl⟩
        unfold Harness.plateauHit
        simp only [hprev]
        rw [hlast prev hprev, if_neg (hstep_a.2 h2a)]
    have hcond : ¬ ((true && Harness.plateauHit acc (Harness.stepCri step a)) = true) := by
      rw [hplfalse]
      exact Bool.false_ne_true
    rw [if_neg hcond]
    apply ih (a + 1) m' _ (by omega) (by omega) (by omega)
    · simp only [List.length_append, List.length_cons, List.length_nil, hlen]
      omega
    · intro prev hprev
      rw [List.getLast?_concat] at hprev
      obtain rfl : _ = prev := Option.some.inj hprev
      simp only [Nat.add_sub_cancel]
      rfl
    · intro h2
      simp
    · intro τ h1 h2
      exact hsteps τ (by omega) h2

/-- C7: plateau law of run_wrapped: when the run reaches a step t of at
least two whose decision is not terminal and whose CRI differs from the
previous step by less than 0.05, the loop stops at t with the decision of
step t and produces exactly t iterations, consuming no further tau
budget. -/
theorem c7_plateau_stop (step : Nat → Harness.CheckResults) (criOk : ℚ) (tau_max t : Nat)
    (ht : 2 ≤ t) (hmax : t ≤ tau_max)
    (htermO : Harness.stepDecision step criOk t ≠ Decision.OK)
    (htermV : Harness.stepDecision step criOk t ≠ Decision.VETO)
    (hpl : |Harness.stepCri step t - Harness.stepCri step (t - 1)| < 1 / 20)
    (hreach : ∀ τ ∈ List.range' 1 (t - 1),
      (Harness.stepDecision step criOk τ ≠ Decision.OK ∧
       Harness.stepDecision step criOk τ ≠ Decision.VETO) ∧
      (2 ≤ τ → ¬ |Harness.stepCri step τ - Harness.stepCri step (τ - 1)| < 1 / 20)) :
    (Harness.run_wrapped step tau_max criOk true).iterations.length = t ∧
    (Harness.run_wrapped step tau_max criOk true).final_decision =
      Harness.stepDecision step criOk t := by
  obtain ⟨l, hrun, hlen⟩ := runSteps_plateau_stop step criOk t ht htermO htermV hpl
    (t - 1) 1 tau_max [] (by omega) le_rfl (by omega) rfl
    (by intro prev hprev; simp at hprev)
    (by intro h2; omega)
    (by
      intro τ h1 h2
      exact hreach τ (List.mem_range'_1.mpr ⟨h1, by omega⟩))
  simp only [Harness.run_wrapped, hrun]
  exact ⟨hlen, trivial⟩

/-- Constant step oracle with a 0.5 pass rate, used as the C7 witness
run. -/
def stepW : Nat → Harness.CheckResults := fun _ => { total_tests := 10, tests_failed := 5 }

/-- Witness for C7 at a concrete three-step budget stopping at step
two. -/
theorem c7_witness :
    (Harness.run_wrapped stepW 3 (9 / 10) true).iterations.length = 2 ∧
    (Harness.run_wrapped stepW 3 (9 / 10) true).final_decision =
      Harness.stepDecision stepW (9 / 10) 2 :=
  c7_plateau_stop stepW (9 / 10) 3 2 (by decide) (by decide) (by decide) (by decide)
    (by decide) (by decide)
